import Mathlib

/-!
Shallow embedding of the real-time fan-out subsystem of the Hirekarma event
backend (`src/routers/events.py`): the `ConnectionManager` registry with its
`connect` / `disconnect` / `send_message` / `broadcast` operations, one
iteration of the websocket endpoint's receive loop, the endpoint's
authentication gate, and the REST mutation paths `create_event` and
`delete_event` that bridge store writes to broadcasts.

Modelling conventions:
- A websocket handle is a `WSocket`; `live = true` means a send on it
  succeeds, `live = false` means the send raises.
- Python's insertion-ordered `dict` keyed by client id is an association
  list with `dictGet` / `dictInsert` / `dictRemove`; `dictInsert` on an
  existing key replaces the value in place, as dict assignment does.
- Delivery effects are made explicit: operations return, besides the new
  state, the list of `(client_id, message)` pairs successfully delivered.
- The event store is a `List EventRec`; the SQL query
  `order_by(created_at desc).offset(skip).limit(limit)` is `queryEvents`.
  `database.py` configures PostgreSQL, where a negative OFFSET or LIMIT
  makes the query raise; that outcome is `none`.
- `create_event` / `delete_event` additionally return a trace of
  `BridgeAction`s recording the order of the store commit and the broadcast
  call, so commit-before-broadcast ordering is expressible.
-/

/-- An outbound websocket handle. `live` records whether a send on it
succeeds; a send on a non-live handle raises in the Python source. -/
structure WSocket where
  sockId : Nat
  live : Bool
deriving DecidableEq, Repr

/-- First value stored under key `k`, mirroring Python `d[k]` / `k in d`. -/
def dictGet (k : String) : List (String × WSocket) → Option WSocket
  | [] => none
  | p :: rest => if p.1 = k then some p.2 else dictGet k rest

/-- Python dict assignment `d[k] = v`: replaces in place when the key is
present, otherwise appends (insertion order preserved). -/
def dictInsert (k : String) (v : WSocket) : List (String × WSocket) → List (String × WSocket)
  | [] => [(k, v)]
  | p :: rest => if p.1 = k then (k, v) :: rest else p :: dictInsert k v rest

/-- Python `del d[k]` guarded by `k in d`: removes the entry when present,
no-op otherwise. -/
def dictRemove (k : String) : List (String × WSocket) → List (String × WSocket)
  | [] => []
  | p :: rest => if p.1 = k then rest else p :: dictRemove k rest

/-- An event row of the `events` table (`models.py`). `created_at` is an
abstract timestamp; `date` and `time` are the strings the table stores. -/
structure EventRec where
  id : Nat
  title : String
  description : String
  date : String
  time : String
  image_url : String
  created_at : Nat
  updated_at : Option Nat
deriving DecidableEq, Repr

/-- Outbound notification variants the subsystem emits (section 6 of the
spec): connection ack, pong, liveness ping, snapshot, and the three
mutation notifications. -/
inductive Notification where
  | connectionAck (userId : Nat) (email : String)
  | pong
  | ping
  | initialEvents (events : List EventRec)
  | eventCreated (event : EventRec)
  | eventUpdated (eventId : Nat)
  | eventDeleted (eventId : Nat)
deriving DecidableEq, Repr

/-- The connection registry: `ConnectionManager.active_connections` from
`src/routers/events.py`, an insertion-ordered dict from client id to
websocket. The asyncio lock only serializes registry access and is not
observable in this sequential embedding. -/
structure ConnectionManager where
  active_connections : List (String × WSocket)
deriving DecidableEq, Repr

/-- `ConnectionManager.connect`: accepts the websocket and stores it under
`client_id` by plain dict assignment — an already-present id is silently
overwritten, no error path exists in the source. -/
def ConnectionManager.connect (m : ConnectionManager) (websocket : WSocket)
    (client_id : String) : ConnectionManager :=
  ⟨dictInsert client_id websocket m.active_connections⟩

/-- `ConnectionManager.disconnect`: deletes the entry if present, no-op
otherwise. -/
def ConnectionManager.disconnect (m : ConnectionManager) (client_id : String) :
    ConnectionManager :=
  ⟨dictRemove client_id m.active_connections⟩

/-- `ConnectionManager.send_message`: if the id is registered, await
`send_json`; on failure (non-live handle) the exception is caught locally
and the session is disconnected — nothing propagates to the caller.
Returns the new registry and the successful deliveries. -/
def ConnectionManager.send_message (m : ConnectionManager) (message : Notification)
    (client_id : String) : ConnectionManager × List (String × Notification) :=
  match dictGet client_id m.active_connections with
  | none => (m, [])
  | some websocket =>
      if websocket.live then (m, [(client_id, message)])
      else (m.disconnect client_id, [])

/-- `ConnectionManager.broadcast`: under the lock, appends the unawaited
`send_json` coroutine of every non-excluded session to `tasks`; coroutine
creation cannot raise, so the `except`/`disconnect` branch in that loop is
unreachable. The sends then run inside
`asyncio.gather(tasks, return_exceptions=True)`, which swallows every send
failure: non-live sessions simply deliver nothing and the registry is
returned unchanged. -/
def ConnectionManager.broadcast (m : ConnectionManager) (message : Notification)
    (exclude : List String) : ConnectionManager × List (String × Notification) :=
  let tasks := m.active_connections.filter (fun p => decide (p.1 ∉ exclude))
  (m, (tasks.filter (fun p => p.2.live)).map (fun p => (p.1, message)))

/-- Insert an event into a list sorted by `created_at` descending. -/
def insertDesc (e : EventRec) : List EventRec → List EventRec
  | [] => [e]
  | x :: xs => if x.created_at ≤ e.created_at then e :: x :: xs else x :: insertDesc e xs

/-- Sort events by `created_at` descending — the embedding of
`query(Event).order_by(Event.created_at.desc())`. -/
def sortEventsDesc (l : List EventRec) : List EventRec :=
  l.foldr insertDesc []

/-- The store query `order_by(created_at desc).offset(skip).limit(limit)`
against the PostgreSQL database `database.py` configures. PostgreSQL
rejects a negative OFFSET or LIMIT with an error, which SQLAlchemy raises
at `.all()`; that raising outcome is `none`. For nonnegative values the
query returns the page of the descending-sorted rows. -/
def queryEvents (db : List EventRec) (skip lim : Int) : Option (List EventRec) :=
  if skip < 0 ∨ lim < 0 then none
  else some (((sortEventsDesc db).drop skip.toNat).take lim.toNat)

/-- An inbound client message as the endpoint reads it: `data.get("type")`,
`data.get("skip")`, `data.get("limit")`. Absent fields are `none`. -/
structure InboundMessage where
  type : Option String
  skip : Option Int
  limit : Option Int
deriving DecidableEq, Repr

/-- What wakes one iteration of the receive loop: an inbound message, the
idle timeout (`asyncio.TimeoutError` after 300s), or the transport
reporting disconnect. -/
inductive LoopEvent where
  | message (data : InboundMessage)
  | timeout
  | disconnected
deriving DecidableEq, Repr

/-- Whether the receive loop keeps running after the iteration. -/
inductive LoopOutcome where
  | stay
  | exit
deriving DecidableEq, Repr

/-- One iteration of the websocket endpoint's `while True` receive loop
for session `client_id`. Returns the loop outcome, the new registry, the
successful deliveries, and the `(skip, limit)` event-store queries issued.

Faithfulness notes: the timeout branch sends the ping through
`send_message`, which catches any send failure internally (disconnecting
the session); the endpoint's own `except`/`break` around that call can
therefore never fire, so the timeout branch always stays in the loop.
A message whose type is neither "ping" nor "get_events" matches no
`if`/`elif` arm and does nothing. A store query that raises (negative
skip or limit on PostgreSQL) escapes the inner `try`, which catches only
`asyncio.TimeoutError`; the endpoint's generic handler logs it and the
`finally` clause deregisters the session, so the loop exits with no
reply sent. -/
def loop_iteration (ev : LoopEvent) (client_id : String) (db : List EventRec)
    (m : ConnectionManager) :
    LoopOutcome × ConnectionManager × List (String × Notification) × List (Int × Int) :=
  match ev with
  | .message data =>
      if data.type = some "ping" then
        let r := m.send_message .pong client_id
        (.stay, r.1, r.2, [])
      else if data.type = some "get_events" then
        let skip := data.skip.getD 0
        let lim := min 50 (data.limit.getD 10)
        match queryEvents db skip lim with
        | none => (.exit, m.disconnect client_id, [], [(skip, lim)])
        | some events =>
            let r := m.send_message (.initialEvents events) client_id
            (.stay, r.1, r.2, [(skip, lim)])
      else
        (.stay, m, [], [])
  | .timeout =>
      let r := m.send_message .ping client_id
      (.stay, r.1, r.2, [])
  | .disconnected =>
      (.exit, m.disconnect client_id, [], [])

/-- An authenticated user row as the endpoint sees it. -/
structure UserRec where
  id : Nat
  email : String
  role : String
deriving DecidableEq, Repr

/-- Python falsiness of the `token` query parameter: absent or empty. -/
def pyFalsy : Option String → Bool
  | none => true
  | some s => s == ""

/-- The websocket close code `status.WS_1008_POLICY_VIOLATION`. -/
def WS_1008_POLICY_VIOLATION : Nat := 1008

/-- The websocket close code `status.WS_1011_INTERNAL_ERROR`. -/
def WS_1011_INTERNAL_ERROR : Nat := 1011

/-- Outcome of token verification in `websocket_endpoint`: `jwtError` is a
`JWTError` from `jwt.decode` (caught by the inner `except JWTError`);
`noUser` is a decoded token with no "sub" claim or no matching user row —
those raise `WebSocketException`, which the inner handler does not catch.
`ok` carries the authenticated user. -/
inductive VerifyResult where
  | jwtError
  | noUser
  | ok (user : UserRec)
deriving DecidableEq, Repr

/-- Result of the endpoint's setup phase, before the receive loop. -/
inductive SetupOutcome where
  | closed (code : Nat)
  | active (client_id : String)
deriving DecidableEq, Repr

/-- The setup phase of `websocket_endpoint`: reject with 1008 when no token
is supplied; otherwise verify the token (jwt decode plus user lookup,
modelled by the `verify` parameter). A `JWTError` is caught and closes
with 1008; a missing "sub" claim or unknown user raises
`WebSocketException`, which falls through to the endpoint's generic
handler and closes with 1011. On success derive the client id
`f"{user.id}_{ms}"`, register with the manager, and send the connection
ack through `send_message`. -/
def websocket_setup (token : Option String) (verify : String → VerifyResult)
    (nowMs : Nat) (websocket : WSocket) (m : ConnectionManager) :
    SetupOutcome × ConnectionManager × List (String × Notification) :=
  if pyFalsy token then (.closed WS_1008_POLICY_VIOLATION, m, [])
  else
    match verify (token.getD "") with
    | .jwtError => (.closed WS_1008_POLICY_VIOLATION, m, [])
    | .noUser => (.closed WS_1011_INTERNAL_ERROR, m, [])
    | .ok user =>
        let client_id := toString user.id ++ "_" ++ toString nowMs
        let m1 := m.connect websocket client_id
        let r := m1.send_message (.connectionAck user.id user.email) client_id
        (.active client_id, r.1, r.2)

/-- HTTP error responses the mutation handlers produce: the explicit
403/400/404 raises, and `internalError` for an uncaught exception that
FastAPI turns into a 500. -/
inductive HttpError where
  | forbidden
  | badRequest
  | notFound
  | internalError
deriving DecidableEq, Repr

/-- The shared state the REST handlers touch: the event store and the
connection registry. -/
structure AppState where
  db : List EventRec
  mgr : ConnectionManager
deriving DecidableEq, Repr

/-- Ordered trace of the externally visible steps of a mutation handler:
the store commit and the broadcast call it issues. -/
inductive BridgeAction where
  | storeCommit (e : EventRec)
  | broadcastCall (message : Notification) (exclude : List String)
deriving DecidableEq, Repr

/-- Python truthiness of `event_data.get(field)`: present and non-empty. -/
def isTruthy : Option String → Bool
  | none => false
  | some s => s != ""

/-- Python `a or b` on two `get` results. -/
def pyOr (a b : Option String) : Option String :=
  if isTruthy a then a else b

/-- The `all([...])` guard of `create_event` over title, description, date,
time and the resolved image url. -/
def requiredPresent (d : Option String × Option String × Option String × Option String ×
    Option String × Option String) : Bool :=
  isTruthy d.1 && isTruthy d.2.1 && isTruthy d.2.2.1 && isTruthy d.2.2.2.1 &&
    isTruthy (pyOr d.2.2.2.2.1 d.2.2.2.2.2)

/-- Request body of `create_event`, with both spellings of the image url:
(title, description, date, time, image_url, imageUrl). -/
abbrev EventData := Option String × Option String × Option String × Option String ×
    Option String × Option String

/-- The row `create_event` inserts: the request fields plus the id the
store assigns and `created_at` set by the store at commit time. -/
def createdEvent (d : EventData) (newId now : Nat) : EventRec :=
  { id := newId
    title := d.1.getD ""
    description := d.2.1.getD ""
    date := d.2.2.1.getD ""
    time := d.2.2.2.1.getD ""
    image_url := (pyOr d.2.2.2.2.1 d.2.2.2.2.2).getD ""
    created_at := now
    updated_at := none }

/-- `create_event` (`POST /`): 403 unless the caller's role is admin, 400
unless the required fields are truthy; otherwise commit the new row to the
store and only then broadcast `event_created` with no exclusion set.
Returns the response, the new state, the successful deliveries and the
ordered action trace. -/
def create_event (event_data : EventData) (role : String) (newId now : Nat)
    (st : AppState) :
    Except HttpError EventRec × AppState × List (String × Notification) × List BridgeAction :=
  if role = "admin" then
    if requiredPresent event_data then
      let db_event := createdEvent event_data newId now
      let db' := st.db ++ [db_event]
      let r := st.mgr.broadcast (.eventCreated db_event) []
      (.ok db_event, ⟨db', r.1⟩, r.2,
        [.storeCommit db_event, .broadcastCall (.eventCreated db_event) []])
    else (.error .badRequest, st, [], [])
  else (.error .forbidden, st, [], [])

/-- `delete_event` (`DELETE /{event_id}`): 403 unless admin; 404 when no
row has the id (state untouched, nothing broadcast). When the row exists,
building the broadcast payload raises an `AttributeError` before
`db.delete` is reached: `db_event.date` is a `String` column so
`date.isoformat()` does not exist, and the `Event` model has no
`created_by` column. The exception escapes the handler as a 500 with the
row still present, nothing delivered and no broadcast call made. -/
def delete_event (event_id : Nat) (role : String) (st : AppState) :
    Except HttpError Unit × AppState × List (String × Notification) × List BridgeAction :=
  if role = "admin" then
    match st.db.find? (fun e => e.id == event_id) with
    | none => (.error .notFound, st, [], [])
    | some _ => (.error .internalError, st, [], [])
  else (.error .forbidden, st, [], [])

/-! Helper lemmas about the dict embedding. -/

theorem dictGet_dictInsert_self (k : String) (v : WSocket) (l : List (String × WSocket)) :
    dictGet k (dictInsert k v l) = some v := by
  induction l with
  | nil => simp [dictInsert, dictGet]
  | cons p rest ih =>
      by_cases h : p.1 = k
      · simp [dictInsert, h, dictGet]
      · simp [dictInsert, h, dictGet, ih]

theorem dictGet_dictInsert_ne (k q : String) (v : WSocket) (l : List (String × WSocket))
    (h : q ≠ k) : dictGet q (dictInsert k v l) = dictGet q l := by
  induction l with
  | nil =>
      have hk : ¬(k = q) := fun hh => h hh.symm
      simp [dictInsert, dictGet, hk]
  | cons p rest ih =>
      by_cases hp : p.1 = k
      · have hk : ¬(k = q) := fun hh => h hh.symm
        have hpq : ¬(p.1 = q) := by rw [hp]; exact hk
        simp [dictInsert, hp, dictGet, hk, hpq]
      · by_cases hq : p.1 = q
        · simp [dictInsert, hp, dictGet, hq, h]
        · simp [dictInsert, hp, dictGet, hq, ih]

theorem dictGet_eq_none_of_not_key (k : String) (l : List (String × WSocket))
    (h : k ∉ l.map Prod.fst) : dictGet k l = none := by
  induction l with
  | nil => rfl
  | cons p rest ih =>
      simp only [List.map_cons, List.mem_cons, not_or] at h
      have hp : ¬(p.1 = k) := fun hh => h.1 hh.symm
      simp [dictGet, hp, ih h.2]

theorem dictGet_dictRemove_self (k : String) (l : List (String × WSocket))
    (hnd : (l.map Prod.fst).Nodup) : dictGet k (dictRemove k l) = none := by
  induction l with
  | nil => rfl
  | cons p rest ih =>
      simp only [List.map_cons, List.nodup_cons] at hnd
      by_cases hp : p.1 = k
      · rw [dictRemove, if_pos hp]
        exact dictGet_eq_none_of_not_key k rest (hp ▸ hnd.1)
      · rw [dictRemove, if_neg hp]
        simp [dictGet, hp, ih hnd.2]

/-! Helper lemmas about the descending sort used to model
`order_by(created_at desc)`. -/

theorem mem_insertDesc (x e : EventRec) (l : List EventRec) :
    x ∈ insertDesc e l ↔ x = e ∨ x ∈ l := by
  induction l with
  | nil => simp [insertDesc]
  | cons y ys ih =>
      by_cases h : y.created_at ≤ e.created_at
      · simp only [insertDesc, if_pos h, List.mem_cons]
      · simp only [insertDesc, if_neg h, List.mem_cons, ih]
        tauto

theorem pairwise_insertDesc (e : EventRec) (l : List EventRec)
    (h : l.Pairwise (fun a b => b.created_at ≤ a.created_at)) :
    (insertDesc e l).Pairwise (fun a b => b.created_at ≤ a.created_at) := by
  induction l with
  | nil => simp [insertDesc]
  | cons y ys ih =>
      rcases List.pairwise_cons.mp h with ⟨hy, hys⟩
      by_cases hc : y.created_at ≤ e.created_at
      · rw [insertDesc, if_pos hc]
        refine List.pairwise_cons.mpr ⟨?_, h⟩
        intro b hb
        rcases List.mem_cons.mp hb with rfl | hb'
        · exact hc
        · exact le_trans (hy b hb') hc
      · rw [insertDesc, if_neg hc]
        refine List.pairwise_cons.mpr ⟨?_, ih hys⟩
        intro b hb
        rcases (mem_insertDesc b e ys).mp hb with rfl | hb'
        · exact (lt_of_not_le hc).le
        · exact hy b hb'

theorem pairwise_sortEventsDesc (l : List EventRec) :
    (sortEventsDesc l).Pairwise (fun a b => b.created_at ≤ a.created_at) := by
  induction l with
  | nil => simp [sortEventsDesc]
  | cons y ys ih => exact pairwise_insertDesc y (sortEventsDesc ys) ih

theorem mem_sortEventsDesc (x : EventRec) (l : List EventRec) :
    x ∈ sortEventsDesc l ↔ x ∈ l := by
  induction l with
  | nil => simp [sortEventsDesc]
  | cons y ys ih =>
      show x ∈ insertDesc y (sortEventsDesc ys) ↔ x ∈ y :: ys
      rw [mem_insertDesc, ih, List.mem_cons]

theorem sorted_max_head (l : List EventRec) (e : EventRec)
    (hs : l.Pairwise (fun a b => b.created_at ≤ a.created_at))
    (hm : e ∈ l)
    (hmax : ∀ x ∈ l, x ≠ e → x.created_at < e.created_at) :
    ∃ rest, l = e :: rest := by
  cases l with
  | nil => cases hm
  | cons y ys =>
      rcases List.pairwise_cons.mp hs with ⟨hy, _⟩
      by_cases hye : y = e
      · exact ⟨ys, by rw [hye]⟩
      · have h1 : y.created_at < e.created_at := hmax y (List.mem_cons_self y ys) hye
        have h2 : e ∈ ys := by
          rcases List.mem_cons.mp hm with he | he
          · exact absurd he.symm hye
          · exact he
        exact absurd h1 (not_lt.mpr (hy e h2))

theorem sortEventsDesc_append_max (db : List EventRec) (e : EventRec)
    (hfresh : ∀ x ∈ db, x.created_at < e.created_at) :
    ∃ rest, sortEventsDesc (db ++ [e]) = e :: rest := by
  apply sorted_max_head _ e (pairwise_sortEventsDesc _)
  · exact (mem_sortEventsDesc e _).mpr (by simp)
  · intro x hx hne
    have hx' : x ∈ db ++ [e] := (mem_sortEventsDesc x _).mp hx
    rcases List.mem_append.mp hx' with h | h
    · exact hfresh x h
    · simp only [List.mem_singleton] at h
      exact absurd h hne

theorem pairwise_sortPage (db : List EventRec) (a b : Nat) :
    (((sortEventsDesc db).drop a).take b).Pairwise
      (fun x y => y.created_at ≤ x.created_at) := by
  have hs := pairwise_sortEventsDesc db
  have hdrop := List.Pairwise.sublist (List.drop_sublist a (sortEventsDesc db)) hs
  exact List.Pairwise.sublist (List.take_sublist b _) hdrop

theorem queryEvents_nonneg (db : List EventRec) (skip lim : Int)
    (hskip : 0 ≤ skip) (hlim : 0 ≤ lim) :
    queryEvents db skip lim =
      some (((sortEventsDesc db).drop skip.toNat).take lim.toNat) := by
  simp [queryEvents, not_lt.mpr hskip, not_lt.mpr hlim]

/-- Shared evaluation of a "get_events" loop iteration at a session whose
handle is registered and live, when the store query succeeds. -/
theorem loop_get_events_eq (db : List EventRec) (m : ConnectionManager) (cid : String)
    (ws : WSocket) (oskip olim : Option Int) (page : List EventRec)
    (hget : dictGet cid m.active_connections = some ws) (hlive : ws.live = true)
    (hq : queryEvents db (oskip.getD 0) (min 50 (olim.getD 10)) = some page) :
    loop_iteration (LoopEvent.message ⟨some "get_events", oskip, olim⟩) cid db m =
      (LoopOutcome.stay, m,
       [(cid, Notification.initialEvents page)],
       [(oskip.getD 0, min 50 (olim.getD 10))]) := by
  simp [loop_iteration, hq, ConnectionManager.send_message, hget, hlive]

/-- C1: evaluation at the failing input. A registry holds N = 2 sessions of
which K = 1 ("b") has a handle that fails on send. `broadcast` yields the
N - K = 1 successful delivery, but performs 0 registry removals instead of
the K = 1 the claim requires: the send failure surfaces only inside
`asyncio.gather(..., return_exceptions=True)` and is swallowed, and the
`except`/`disconnect` in the task-building loop guards only coroutine
creation, which cannot fail. -/
theorem C1_broadcast_keeps_dead_sessions :
    ConnectionManager.broadcast ⟨[("a", ⟨0, true⟩), ("b", ⟨1, false⟩)]⟩
        Notification.pong [] =
      (⟨[("a", ⟨0, true⟩), ("b", ⟨1, false⟩)]⟩, [("a", Notification.pong)]) := by
  rfl

/-- C2 counterexample: with session id "s" already registered (handle 0),
`connect` with a new handle 1 under the same id does not fail with any
`DuplicateSession` error — it is a total operation — and it does not leave
the existing entry unchanged: the registry afterwards maps "s" to the new
handle. -/
theorem C2_register_duplicate_overwrites :
    (ConnectionManager.connect ⟨[("s", ⟨0, true⟩)]⟩ ⟨1, true⟩ "s").active_connections =
      [("s", ⟨1, true⟩)] := by
  rfl

/-- C2 (amended): when session_id is already present, register succeeds and
silently replaces the stored delivery handle for that id, leaving every
other entry unchanged; no error is raised and the caller performs no
regeneration or retry. -/
theorem C2_register_replaces_in_place (m : ConnectionManager) (cid : String)
    (ws : WSocket) :
    dictGet cid ((m.connect ws cid).active_connections) = some ws ∧
    ∀ k, k ≠ cid →
      dictGet k ((m.connect ws cid).active_connections) =
        dictGet k m.active_connections := by
  refine ⟨dictGet_dictInsert_self cid ws m.active_connections, ?_⟩
  intro k hk
  exact dictGet_dictInsert_ne cid k ws m.active_connections hk

/-- C2 witness: the amended statement applied at a registry holding "s" and
"t", re-registering "s" with a new handle; the untouched entry "t" keeps
its binding. -/
theorem C2_register_replaces_in_place_witness :
    dictGet "t" ((ConnectionManager.connect ⟨[("s", ⟨0, true⟩), ("t", ⟨2, true⟩)]⟩
        ⟨1, true⟩ "s").active_connections) =
      dictGet "t" [("s", ⟨0, true⟩), ("t", ⟨2, true⟩)] :=
  (C2_register_replaces_in_place ⟨[("s", ⟨0, true⟩), ("t", ⟨2, true⟩)]⟩ "s" ⟨1, true⟩).2
    "t" (by decide)

/-- C3: evaluation at the failing input. Session "c1" is Active with a
handle that fails on send; the idle timeout fires. The ping goes through
`send_message`, which catches the failure internally and deregisters the
session, so the endpoint's own `except`/`break` never fires: the iteration
ends with the session removed from the registry but the receive loop still
running (`stay`), whereas the claim says the session exits the loop. -/
theorem C3_dead_probe_loop_continues :
    loop_iteration LoopEvent.timeout "c1" [] ⟨[("c1", ⟨0, false⟩)]⟩ =
      (LoopOutcome.stay, ⟨[]⟩, [], []) := by
  rfl

/-- C4: `send_to` (the source's `send_message`) on a registered session: if
the handle succeeds the registry is unchanged and the one message is
delivered; if the handle fails the session is removed from the registry
(its id no longer resolves), nothing is delivered, no retry happens, and
no failure reaches the caller (the operation is total). -/
theorem C4_send_to_prunes_on_failure (m : ConnectionManager) (cid : String)
    (ws : WSocket) (msg : Notification)
    (hget : dictGet cid m.active_connections = some ws)
    (hnd : (m.active_connections.map Prod.fst).Nodup) :
    (ws.live = true → m.send_message msg cid = (m, [(cid, msg)])) ∧
    (ws.live = false →
      m.send_message msg cid = (m.disconnect cid, []) ∧
      dictGet cid ((m.disconnect cid).active_connections) = none) := by
  constructor
  · intro hl
    simp [ConnectionManager.send_message, hget, hl]
  · intro hl
    refine ⟨by simp [ConnectionManager.send_message, hget, hl], ?_⟩
    simpa [ConnectionManager.disconnect] using
      dictGet_dictRemove_self cid m.active_connections hnd

/-- C4 witness: the theorem applied at a registry holding the single
session "a" with a handle that fails on send. -/
theorem C4_send_to_prunes_on_failure_witness :
    dictGet "a" [("a", ⟨0, false⟩)] = some ⟨0, false⟩ ∧
    ((WSocket.mk 0 false).live = true →
      ConnectionManager.send_message ⟨[("a", ⟨0, false⟩)]⟩ Notification.pong "a" =
        (⟨[("a", ⟨0, false⟩)]⟩, [("a", Notification.pong)])) ∧
    ((WSocket.mk 0 false).live = false →
      ConnectionManager.send_message ⟨[("a", ⟨0, false⟩)]⟩ Notification.pong "a" =
        (ConnectionManager.disconnect ⟨[("a", ⟨0, false⟩)]⟩ "a", []) ∧
      dictGet "a" ((ConnectionManager.disconnect ⟨[("a", ⟨0, false⟩)]⟩ "a").active_connections) =
        none) :=
  ⟨by decide,
   C4_send_to_prunes_on_failure ⟨[("a", ⟨0, false⟩)]⟩ "a" ⟨0, false⟩ Notification.pong
     (by decide) (by decide)⟩

/-- C5: a successful `create_event` commits the new row to the store and
only afterwards (see the ordered action trace) calls broadcast with the
`event_created` notification and an empty exclusion set; with every
registered handle live — the initiating client's own session included, if
it holds one — every registered session receives the notification, and the
registry itself is untouched. -/
theorem C5_create_broadcast_after_commit (d : EventData) (newId now : Nat)
    (st : AppState)
    (hfields : requiredPresent d = true)
    (hlive : ∀ p ∈ st.mgr.active_connections, p.2.live = true) :
    create_event d "admin" newId now st =
      (.ok (createdEvent d newId now),
       ⟨st.db ++ [createdEvent d newId now], st.mgr⟩,
       st.mgr.active_connections.map
         (fun p => (p.1, Notification.eventCreated (createdEvent d newId now))),
       [BridgeAction.storeCommit (createdEvent d newId now),
        BridgeAction.broadcastCall
          (Notification.eventCreated (createdEvent d newId now)) []]) := by
  have hx : st.mgr.active_connections.filter
      (fun p => decide (p.1 ∉ ([] : List String))) = st.mgr.active_connections := by
    apply List.filter_eq_self.mpr
    intro a _
    simp
  have hy : st.mgr.active_connections.filter (fun p => p.2.live) =
      st.mgr.active_connections := by
    apply List.filter_eq_self.mpr
    intro a ha
    simp [hlive a ha]
  simp [create_event, hfields, ConnectionManager.broadcast, hx, hy]

/-- C5 witness: the theorem applied at a one-event request body with all
required fields present and a registry holding one live session. -/
theorem C5_create_broadcast_after_commit_witness :
    requiredPresent (some "t", some "d", some "2025-01-01", some "10:00",
        some "u", none) = true ∧
    (∀ p ∈ (ConnectionManager.mk [("a", ⟨0, true⟩)]).active_connections,
        p.2.live = true) ∧
    create_event (some "t", some "d", some "2025-01-01", some "10:00", some "u", none)
        "admin" 1 5 ⟨[], ⟨[("a", ⟨0, true⟩)]⟩⟩ =
      (.ok (createdEvent
          (some "t", some "d", some "2025-01-01", some "10:00", some "u", none) 1 5),
       ⟨[] ++ [createdEvent
          (some "t", some "d", some "2025-01-01", some "10:00", some "u", none) 1 5],
        ⟨[("a", ⟨0, true⟩)]⟩⟩,
       (ConnectionManager.mk [("a", ⟨0, true⟩)]).active_connections.map
         (fun p => (p.1, Notification.eventCreated (createdEvent
            (some "t", some "d", some "2025-01-01", some "10:00", some "u", none) 1 5))),
       [BridgeAction.storeCommit (createdEvent
          (some "t", some "d", some "2025-01-01", some "10:00", some "u", none) 1 5),
        BridgeAction.broadcastCall (Notification.eventCreated (createdEvent
          (some "t", some "d", some "2025-01-01", some "10:00", some "u", none) 1 5))
          []]) :=
  ⟨by decide, by decide,
   C5_create_broadcast_after_commit
     (some "t", some "d", some "2025-01-01", some "10:00", some "u", none) 1 5
     ⟨[], ⟨[("a", ⟨0, true⟩)]⟩⟩ (by decide) (by decide)⟩

/-- C6 counterexample: a "get_events" message with the integer skip -1
from the registered live session "a". PostgreSQL rejects the negative
OFFSET, the exception escapes the inner `try` (which catches only
`asyncio.TimeoutError`), and the endpoint's `finally` deregisters the
session: no `initial_events` reply is sent and the loop exits — refuting
the claim's "replies with a single snapshot" for arbitrary integers. -/
theorem C6_negative_skip_no_reply :
    loop_iteration (LoopEvent.message ⟨some "get_events", some (-1), some 10⟩) "a"
        [] ⟨[("a", ⟨0, true⟩)]⟩ =
      (LoopOutcome.exit, ⟨[]⟩, [], [(-1, 10)]) := by
  rfl

/-- C6 (amended): a "get_events" message with any nonnegative integer skip
and limit, handled at a session whose handle is registered and live,
clamps the effective limit to at most 50, issues exactly one store query
with that skip and effective limit, and replies to that session alone
with a single `initial_events` snapshot containing the requested page,
which is ordered by `created_at` descending; the registry is unchanged. -/
theorem C6_get_events_clamped_sorted_reply (db : List EventRec)
    (m : ConnectionManager) (cid : String) (ws : WSocket) (skip lim : Int)
    (hget : dictGet cid m.active_connections = some ws)
    (hlive : ws.live = true) (hskip : 0 ≤ skip) (hlim : 0 ≤ lim) :
    min 50 lim ≤ 50 ∧
    loop_iteration (LoopEvent.message ⟨some "get_events", some skip, some lim⟩)
        cid db m =
      (LoopOutcome.stay, m,
       [(cid, Notification.initialEvents
          (((sortEventsDesc db).drop skip.toNat).take (min 50 lim).toNat))],
       [(skip, min 50 lim)]) ∧
    (((sortEventsDesc db).drop skip.toNat).take (min 50 lim).toNat).Pairwise
      (fun a b => b.created_at ≤ a.created_at) := by
  have hlim' : (0 : Int) ≤ min 50 lim := le_min (by norm_num) hlim
  refine ⟨min_le_left 50 lim, ?_, pairwise_sortPage db skip.toNat (min 50 lim).toNat⟩
  have hq := queryEvents_nonneg db skip (min 50 lim) hskip hlim'
  simpa using
    loop_get_events_eq db m cid ws (some skip) (some lim)
      (((sortEventsDesc db).drop skip.toNat).take (min 50 lim).toNat) hget hlive
      (by simpa using hq)

/-- C6 witness: the amended theorem applied at a two-event store, the live
session "a", skip 0 and an oversized limit 1000 (clamped to 50). -/
theorem C6_get_events_clamped_sorted_reply_witness :
    dictGet "a" [("a", ⟨0, true⟩)] = some ⟨0, true⟩ ∧
    (min 50 (1000 : Int) ≤ 50 ∧
     loop_iteration (LoopEvent.message ⟨some "get_events", some 0, some 1000⟩) "a"
        [⟨1, "x", "dx", "2025-01-01", "10:00", "u", 3, none⟩,
         ⟨2, "y", "dy", "2025-01-02", "11:00", "v", 7, none⟩]
        ⟨[("a", ⟨0, true⟩)]⟩ =
      (LoopOutcome.stay, ⟨[("a", ⟨0, true⟩)]⟩,
       [("a", Notification.initialEvents
          (((sortEventsDesc
              [⟨1, "x", "dx", "2025-01-01", "10:00", "u", 3, none⟩,
               ⟨2, "y", "dy", "2025-01-02", "11:00", "v", 7, none⟩]).drop
            (Int.toNat 0)).take (min 50 (1000 : Int)).toNat))],
       [((0 : Int), min 50 (1000 : Int))]) ∧
     (((sortEventsDesc
          [⟨1, "x", "dx", "2025-01-01", "10:00", "u", 3, none⟩,
           ⟨2, "y", "dy", "2025-01-02", "11:00", "v", 7, none⟩]).drop
        (Int.toNat 0)).take (min 50 (1000 : Int)).toNat).Pairwise
       (fun a b => b.created_at ≤ a.created_at)) :=
  ⟨by decide,
   C6_get_events_clamped_sorted_reply
     [⟨1, "x", "dx", "2025-01-01", "10:00", "u", 3, none⟩,
      ⟨2, "y", "dy", "2025-01-02", "11:00", "v", 7, none⟩]
     ⟨[("a", ⟨0, true⟩)]⟩ "a" ⟨0, true⟩ 0 1000 (by decide) (by decide)
     (by norm_num) (by norm_num)⟩

/-- C7 round-trip: after a successful `create_event` whose commit timestamp
is fresher than every stored event, a "get_events" request (default first
page) from any session that is registered with a live handle in the
resulting state replies with the snapshot of the new store; that first
page contains the newly created event and is ordered newest first by
`created_at`. -/
theorem C7_create_then_get_events_roundtrip (d : EventData) (newId now : Nat)
    (st : AppState) (cid : String) (ws : WSocket)
    (hfields : requiredPresent d = true)
    (hfresh : ∀ x ∈ st.db, x.created_at < now)
    (hget : dictGet cid st.mgr.active_connections = some ws)
    (hlive : ws.live = true) :
    loop_iteration (LoopEvent.message ⟨some "get_events", none, none⟩) cid
        ((create_event d "admin" newId now st).2.1.db)
        ((create_event d "admin" newId now st).2.1.mgr) =
      (LoopOutcome.stay, (create_event d "admin" newId now st).2.1.mgr,
       [(cid, Notification.initialEvents
          ((sortEventsDesc (st.db ++ [createdEvent d newId now])).take 10))],
       [(0, 10)]) ∧
    createdEvent d newId now ∈
      (sortEventsDesc (st.db ++ [createdEvent d newId now])).take 10 ∧
    ((sortEventsDesc (st.db ++ [createdEvent d newId now])).take 10).Pairwise
      (fun a b => b.created_at ≤ a.created_at) := by
  have hdb : (create_event d "admin" newId now st).2.1.db =
      st.db ++ [createdEvent d newId now] := by
    simp [create_event, hfields]
  have hmgr : (create_event d "admin" newId now st).2.1.mgr = st.mgr := by
    simp [create_event, hfields, ConnectionManager.broadcast]
  have hq : queryEvents (st.db ++ [createdEvent d newId now]) 0 (min 50 10) =
      some ((sortEventsDesc (st.db ++ [createdEvent d newId now])).take 10) := by
    have hmin : min (50 : Int) 10 = 10 := by decide
    rw [hmin, queryEvents_nonneg _ _ _ (by norm_num) (by norm_num)]
    norm_num
    rfl
  have hpage : ((sortEventsDesc (st.db ++ [createdEvent d newId now])).take 10) =
      ((sortEventsDesc (st.db ++ [createdEvent d newId now])).drop 0).take 10 := by
    rw [List.drop_zero]
  refine ⟨?_, ?_, by rw [hpage]; exact pairwise_sortPage _ 0 10⟩
  · rw [hdb, hmgr]
    simpa using
      loop_get_events_eq (st.db ++ [createdEvent d newId now]) st.mgr cid ws
        none none ((sortEventsDesc (st.db ++ [createdEvent d newId now])).take 10)
        hget hlive (by simpa using hq)
  · have hfresh' : ∀ x ∈ st.db, x.created_at < (createdEvent d newId now).created_at := by
      intro x hx
      simpa [createdEvent] using hfresh x hx
    obtain ⟨rest, hrest⟩ :=
      sortEventsDesc_append_max st.db (createdEvent d newId now) hfresh'
    rw [hrest]
    have ht : List.take 10 (createdEvent d newId now :: rest) =
        createdEvent d newId now :: List.take 9 rest := rfl
    rw [ht]
    exact List.mem_cons_self _ _

/-- C7 witness: the theorem applied at a one-event store with timestamp 3,
a fresh creation at timestamp 9, and the live session "a"; the created
event is in the first page. -/
theorem C7_create_then_get_events_roundtrip_witness :
    (∀ x ∈ [EventRec.mk 1 "x" "dx" "2025-01-01" "10:00" "u" 3 none],
        x.created_at < 9) ∧
    createdEvent (some "t", some "d", some "D", some "T", some "u", none) 2 9 ∈
      (sortEventsDesc ([EventRec.mk 1 "x" "dx" "2025-01-01" "10:00" "u" 3 none] ++
        [createdEvent (some "t", some "d", some "D", some "T", some "u", none) 2 9])).take
        10 :=
  ⟨by decide,
   (C7_create_then_get_events_roundtrip
      (some "t", some "d", some "D", some "T", some "u", none) 2 9
      ⟨[EventRec.mk 1 "x" "dx" "2025-01-01" "10:00" "u" 3 none],
       ⟨[("a", ⟨0, true⟩)]⟩⟩ "a" ⟨0, true⟩
      (by decide) (by decide) (by decide) (by decide)).2.1⟩

/-- C8: a connection attempt with no token is closed with the policy
violation code 1008 before anything else happens: the registry is returned
exactly as it was (no session registered, anonymous or otherwise) and no
message — in particular no connection ack — is delivered. -/
theorem C8_no_token_rejected (verify : String → VerifyResult) (nowMs : Nat)
    (websocket : WSocket) (m : ConnectionManager) :
    websocket_setup none verify nowMs websocket m =
      (SetupOutcome.closed WS_1008_POLICY_VIOLATION, m, []) := by
  rfl

/-- C9: deleting an event id that no stored row carries returns `NotFound`,
leaves the whole state (store and registry) unchanged, delivers nothing,
and performs no store delete and no broadcast call (empty action trace). -/
theorem C9_delete_missing_notfound_no_broadcast (st : AppState) (eid : Nat)
    (habs : ∀ e ∈ st.db, e.id ≠ eid) :
    delete_event eid "admin" st = (.error .notFound, st, [], []) := by
  have hf : st.db.find? (fun e => e.id == eid) = none := by
    apply List.find?_eq_none.mpr
    intro x hx
    simpa using habs x hx
  simp [delete_event, hf]

/-- C9 witness: the theorem applied at a store holding only event id 1 and
a registry with a live session, deleting the absent id 2. -/
theorem C9_delete_missing_notfound_no_broadcast_witness :
    (∀ e ∈ [EventRec.mk 1 "x" "dx" "2025-01-01" "10:00" "u" 3 none],
        e.id ≠ 2) ∧
    delete_event 2 "admin"
        ⟨[EventRec.mk 1 "x" "dx" "2025-01-01" "10:00" "u" 3 none],
         ⟨[("a", ⟨0, true⟩)]⟩⟩ =
      (.error .notFound,
       ⟨[EventRec.mk 1 "x" "dx" "2025-01-01" "10:00" "u" 3 none],
        ⟨[("a", ⟨0, true⟩)]⟩⟩, [], []) :=
  ⟨by decide,
   C9_delete_missing_notfound_no_broadcast
     ⟨[EventRec.mk 1 "x" "dx" "2025-01-01" "10:00" "u" 3 none],
      ⟨[("a", ⟨0, true⟩)]⟩⟩ 2 (by decide)⟩

/-- C10: an inbound message whose type is neither "ping" nor "get_events"
(a missing type field included) matches no handler arm: nothing is
delivered, no store query is issued, the registry is unchanged, and the
session stays in its receive loop. -/
theorem C10_unknown_message_no_effect (data : InboundMessage) (cid : String)
    (db : List EventRec) (m : ConnectionManager)
    (h1 : data.type ≠ some "ping") (h2 : data.type ≠ some "get_events") :
    loop_iteration (LoopEvent.message data) cid db m =
      (LoopOutcome.stay, m, [], []) := by
  simp [loop_iteration, h1, h2]

/-- C10 witness: the theorem applied at a message with no type field, a
nonempty store and a registered live session. -/
theorem C10_unknown_message_no_effect_witness :
    ((InboundMessage.mk none none none).type ≠ some "ping") ∧
    ((InboundMessage.mk none none none).type ≠ some "get_events") ∧
    loop_iteration (LoopEvent.message ⟨none, none, none⟩) "a"
        [EventRec.mk 1 "x" "dx" "2025-01-01" "10:00" "u" 3 none]
        ⟨[("a", ⟨0, true⟩)]⟩ =
      (LoopOutcome.stay, ⟨[("a", ⟨0, true⟩)]⟩, [], []) :=
  ⟨by decide, by decide,
   C10_unknown_message_no_effect ⟨none, none, none⟩ "a"
     [EventRec.mk 1 "x" "dx" "2025-01-01" "10:00" "u" 3 none]
     ⟨[("a", ⟨0, true⟩)]⟩ (by decide) (by decide)⟩
